import Mathlib

/-!
Shallow embedding of the opensase-payments domain core
(src/domain/value_objects, src/domain/events, src/domain/aggregates).

`rust_decimal::Decimal` is modelled as `Rat` (exact base-10 decimals are a
subset of the rationals; the code only adds and compares them).
`DateTime<Utc>` timestamps and `NaiveDate` dates are modelled as `Int`
(`chrono::Duration::days n` becomes `+ n`).  Nondeterministic inputs of the
Rust constructors (`PaymentId::new()`, `uuid`, `Utc::now()`) are passed as
explicit parameters.  A Rust method `fn f(&mut self, ..) -> Result<(), E>`
becomes a pure function returning `Payment × Option PaymentError`: the first
component is the state after the call (unchanged on the error path, exactly
as the Rust early returns leave `self`), the second the returned error.
-/

/-- Rust `rust_decimal::Decimal`, modelled as an exact rational. -/
abbrev Decimal := Rat

/-- Rust `Money { amount, currency }` from value_objects/mod.rs. -/
structure Money where
  amount : Decimal
  currency : String
deriving DecidableEq, Repr

/-- Rust `PaymentId(String)` from value_objects/mod.rs (opaque string token). -/
abbrev PaymentId := String

/-- Rust `PaymentMethodType` from value_objects/mod.rs. -/
inductive PaymentMethodType
  | Card
  | BankTransfer
  | Wallet
  | Crypto
deriving DecidableEq, Repr

/-- Rust `PaymentMethod` from value_objects/mod.rs. -/
structure PaymentMethod where
  method_type : PaymentMethodType
  last_four : Option String
  brand : Option String
  exp_month : Option Nat
  exp_year : Option Nat
deriving DecidableEq, Repr

/-- Rust `PaymentEvent` from events/mod.rs. -/
inductive PaymentEvent
  | Created (payment_id : PaymentId) (amount : Decimal)
  | Succeeded (payment_id : PaymentId)
  | Failed (payment_id : PaymentId) (reason : String)
  | Refunded (payment_id : PaymentId) (amount : Decimal)
deriving DecidableEq, Repr

/-- Rust `SubscriptionEvent` from events/mod.rs. -/
inductive SubscriptionEvent
  | Created (subscription_id : String)
  | Renewed (subscription_id : String)
  | Cancelled (subscription_id : String) (at_period_end : Bool)
  | PaymentFailed (subscription_id : String)
deriving DecidableEq, Repr

/-- Rust `DomainEvent` from events/mod.rs. -/
inductive DomainEvent
  | Payment (e : PaymentEvent)
  | Subscription (e : SubscriptionEvent)
deriving DecidableEq, Repr

/-- Rust `PaymentStatus` from aggregates/payment.rs. -/
inductive PaymentStatus
  | Pending
  | Processing
  | Succeeded
  | Failed
  | Cancelled
  | Refunded
  | PartiallyRefunded
deriving DecidableEq, Repr

/-- Rust `PaymentError` from aggregates/payment.rs. -/
inductive PaymentError
  | InvalidStatus
  | NotRefundable
  | RefundExceedsPayment
deriving DecidableEq, Repr

/-- The `Payment` aggregate root from aggregates/payment.rs.
`metadata: HashMap<String,String>` is modelled as an association list (it is
only ever created empty and never touched by any operation). -/
structure Payment where
  id : PaymentId
  customer_id : String
  amount : Money
  status : PaymentStatus
  payment_method : Option PaymentMethod
  description : Option String
  metadata : List (String × String)
  refunded_amount : Decimal
  created_at : Int
  events : List DomainEvent
deriving DecidableEq, Repr

/-- Rust `Payment::raise_event`: pushes an event onto the pending-events buffer. -/
def Payment.raise_event (p : Payment) (e : DomainEvent) : Payment :=
  { p with events := p.events ++ [e] }

/-- Rust `Payment::create(customer_id, amount)`.  The freshly generated
`PaymentId` and `Utc::now()` are passed as the parameters `id` and `now`. -/
def Payment.create (customer_id : String) (amount : Money) (id : PaymentId)
    (now : Int) : Payment :=
  let p : Payment :=
    { id := id, customer_id := customer_id, amount := amount,
      status := PaymentStatus.Pending, payment_method := none,
      description := none, metadata := [], refunded_amount := 0,
      created_at := now, events := [] }
  p.raise_event (DomainEvent.Payment (PaymentEvent.Created id amount.amount))

/-- Rust `Payment::process(&mut self, method)`. -/
def Payment.process (p : Payment) (method : PaymentMethod) :
    Payment × Option PaymentError :=
  if p.status ≠ PaymentStatus.Pending then (p, some PaymentError.InvalidStatus)
  else
    ({ p with payment_method := some method,
              status := PaymentStatus.Processing }, none)

/-- Rust `Payment::succeed(&mut self)`. -/
def Payment.succeed (p : Payment) : Payment × Option PaymentError :=
  if p.status ≠ PaymentStatus.Processing then
    (p, some PaymentError.InvalidStatus)
  else
    let p := { p with status := PaymentStatus.Succeeded }
    (p.raise_event (DomainEvent.Payment (PaymentEvent.Succeeded p.id)), none)

/-- Rust `Payment::fail(&mut self, reason)`: unconditionally sets status Failed;
the reason is discarded and no event is raised (as in the source). -/
def Payment.fail (p : Payment) (reason : String) : Payment :=
  { p with status := PaymentStatus.Failed }

/-- Rust `Payment::refund(&mut self, amount)`. -/
def Payment.refund (p : Payment) (amount : Decimal) :
    Payment × Option PaymentError :=
  if p.status ≠ PaymentStatus.Succeeded ∧
      p.status ≠ PaymentStatus.PartiallyRefunded then
    (p, some PaymentError.NotRefundable)
  else
    let new_total := p.refunded_amount + amount
    if new_total > p.amount.amount then
      (p, some PaymentError.RefundExceedsPayment)
    else
      let p := { p with refunded_amount := new_total,
                        status := if new_total = p.amount.amount then
                            PaymentStatus.Refunded
                          else PaymentStatus.PartiallyRefunded }
      (p.raise_event (DomainEvent.Payment (PaymentEvent.Refunded p.id amount)),
       none)

/-- Rust `Payment::take_events(&mut self)`: `std::mem::take(&mut self.events)`. -/
def Payment.take_events (p : Payment) : List DomainEvent × Payment :=
  (p.events, { p with events := [] })

/-- Rust `SubscriptionStatus` from aggregates/subscription.rs. -/
inductive SubscriptionStatus
  | Active
  | PastDue
  | Cancelled
  | Trialing
  | Paused
deriving DecidableEq, Repr

/-- Rust `BillingCycle` from aggregates/subscription.rs. -/
inductive BillingCycle
  | Monthly
  | Yearly
  | Weekly
deriving DecidableEq, Repr

/-- Rust `SubscriptionError` from aggregates/subscription.rs (declared in the
source but never returned by any operation). -/
inductive SubscriptionError
  | AlreadyCancelled
  | NotPaused
deriving DecidableEq, Repr

/-- The `Subscription` aggregate root from aggregates/subscription.rs. -/
structure Subscription where
  id : String
  customer_id : String
  plan_id : String
  status : SubscriptionStatus
  current_period_start : Int
  current_period_end : Int
  billing_cycle : BillingCycle
  amount : Money
  cancel_at_period_end : Bool
  cancelled_at : Option Int
  created_at : Int
  events : List DomainEvent
deriving DecidableEq, Repr

/-- Rust `Subscription::raise_event`. -/
def Subscription.raise_event (s : Subscription) (e : DomainEvent) :
    Subscription :=
  { s with events := s.events ++ [e] }

/-- Rust `Subscription::create(customer_id, plan_id, amount, cycle)`.  The uuid
and the two `Utc::now()` readings are the parameters `id`, `today`
(`date_naive`) and `now`. -/
def Subscription.create (customer_id plan_id : String) (amount : Money)
    (cycle : BillingCycle) (id : String) (today now : Int) : Subscription :=
  let period_end :=
    match cycle with
    | BillingCycle.Monthly => today + 30
    | BillingCycle.Yearly => today + 365
    | BillingCycle.Weekly => today + 7
  let s : Subscription :=
    { id := id, customer_id := customer_id, plan_id := plan_id,
      status := SubscriptionStatus.Active, current_period_start := today,
      current_period_end := period_end, billing_cycle := cycle,
      amount := amount, cancel_at_period_end := false, cancelled_at := none,
      created_at := now, events := [] }
  s.raise_event (DomainEvent.Subscription (SubscriptionEvent.Created id))

/-- Rust `Subscription::renew(&mut self)`. -/
def Subscription.renew (s : Subscription) : Subscription :=
  let s := { s with current_period_start := s.current_period_end }
  let s :=
    { s with current_period_end :=
        match s.billing_cycle with
        | BillingCycle.Monthly => s.current_period_start + 30
        | BillingCycle.Yearly => s.current_period_start + 365
        | BillingCycle.Weekly => s.current_period_start + 7 }
  s.raise_event (DomainEvent.Subscription (SubscriptionEvent.Renewed s.id))

/-- Rust `Subscription::cancel(&mut self, at_period_end)`; `Utc::now()` is the
parameter `now`. -/
def Subscription.cancel (s : Subscription) (at_period_end : Bool) (now : Int) :
    Subscription :=
  let s :=
    if at_period_end then { s with cancel_at_period_end := true }
    else { s with status := SubscriptionStatus.Cancelled,
                  cancelled_at := some now }
  s.raise_event
    (DomainEvent.Subscription (SubscriptionEvent.Cancelled s.id at_period_end))

/-- Rust `Subscription::pause(&mut self)`. -/
def Subscription.pause (s : Subscription) : Subscription :=
  { s with status := SubscriptionStatus.Paused }

/-- Rust `Subscription::resume(&mut self)`. -/
def Subscription.resume (s : Subscription) : Subscription :=
  if s.status = SubscriptionStatus.Paused then
    { s with status := SubscriptionStatus.Active }
  else s

/-- Rust `Subscription::take_events(&mut self)`. -/
def Subscription.take_events (s : Subscription) :
    List DomainEvent × Subscription :=
  (s.events, { s with events := [] })

/-- One lifecycle operation on a `Payment` (the callable mutators of the
aggregate), used to reason about arbitrary operation sequences. -/
inductive PaymentOp
  | process (method : PaymentMethod)
  | succeed
  | fail (reason : String)
  | refund (amount : Decimal)
  | take_events
deriving DecidableEq, Repr

/-- Apply one operation to a `Payment`, keeping the post-call state (the
Rust methods mutate `self` in place; on an error return `self` is
unchanged). -/
def Payment.applyOp (p : Payment) : PaymentOp → Payment
  | PaymentOp.process m => (p.process m).1
  | PaymentOp.succeed => p.succeed.1
  | PaymentOp.fail r => p.fail r
  | PaymentOp.refund a => (p.refund a).1
  | PaymentOp.take_events => p.take_events.2

/-- Run a sequence of operations on a `Payment`. -/
def Payment.runOps (p : Payment) (ops : List PaymentOp) : Payment :=
  ops.foldl Payment.applyOp p

/-- One lifecycle operation on a `Subscription`. -/
inductive SubscriptionOp
  | renew
  | cancel (at_period_end : Bool) (now : Int)
  | pause
  | resume
  | take_events
deriving DecidableEq, Repr

/-- Apply one operation to a `Subscription`. -/
def Subscription.applyOp (s : Subscription) : SubscriptionOp → Subscription
  | SubscriptionOp.renew => s.renew
  | SubscriptionOp.cancel b t => s.cancel b t
  | SubscriptionOp.pause => s.pause
  | SubscriptionOp.resume => s.resume
  | SubscriptionOp.take_events => s.take_events.2

/-- Run a sequence of operations on a `Subscription`. -/
def Subscription.runOps (s : Subscription) (ops : List SubscriptionOp) :
    Subscription :=
  ops.foldl Subscription.applyOp s

/-- C8: `Payment::create` yields status Pending, `refunded_amount = 0`,
no payment method, and a pending-events buffer holding exactly one
`PaymentEvent::Created` with the id of the payment and the original amount. -/
theorem C8_create_initial_state (customer_id : String) (amount : Money)
    (id : PaymentId) (now : Int) :
    (Payment.create customer_id amount id now).status = PaymentStatus.Pending ∧
    (Payment.create customer_id amount id now).refunded_amount = 0 ∧
    (Payment.create customer_id amount id now).payment_method = none ∧
    (Payment.create customer_id amount id now).events =
      [DomainEvent.Payment (PaymentEvent.Created id amount.amount)] ∧
    (Payment.create customer_id amount id now).id = id := by
  refine ⟨rfl, rfl, rfl, ?_, rfl⟩
  simp [Payment.create, Payment.raise_event]

/-- C6: `Subscription::renew` shifts `current_period_start` to the prior
`current_period_end`, sets `current_period_end` to the new start plus the
fixed day offset of the cycle (Monthly 30, Yearly 365, Weekly 7), appends exactly
one `SubscriptionEvent::Renewed{subscription_id}`, and changes neither
`status` nor `cancel_at_period_end`. -/
theorem C6_renew_behavior (s : Subscription) :
    s.renew.current_period_start = s.current_period_end ∧
    s.renew.current_period_end = s.renew.current_period_start +
      (match s.billing_cycle with
       | BillingCycle.Monthly => (30 : Int)
       | BillingCycle.Yearly => 365
       | BillingCycle.Weekly => 7) ∧
    s.renew.status = s.status ∧
    s.renew.cancel_at_period_end = s.cancel_at_period_end ∧
    s.renew.events = s.events ++
      [DomainEvent.Subscription (SubscriptionEvent.Renewed s.id)] := by
  cases hb : s.billing_cycle <;>
    simp [Subscription.renew, Subscription.raise_event, hb]

/-- C7: `Subscription::cancel(true)` only sets `cancel_at_period_end`,
leaving `status` and `cancelled_at` unchanged; `cancel(false)` sets status
Cancelled and records `cancelled_at`; and every call, in either form and in
every prior state, appends exactly one
`SubscriptionEvent::Cancelled{subscription_id, at_period_end}`. -/
theorem C7_cancel_behavior (s : Subscription) (now : Int) :
    (s.cancel true now).status = s.status ∧
    (s.cancel true now).cancelled_at = s.cancelled_at ∧
    (s.cancel true now).cancel_at_period_end = true ∧
    (s.cancel false now).status = SubscriptionStatus.Cancelled ∧
    (s.cancel false now).cancelled_at = some now ∧
    ∀ b : Bool, (s.cancel b now).events = s.events ++
      [DomainEvent.Subscription (SubscriptionEvent.Cancelled s.id b)] := by
  refine ⟨rfl, rfl, rfl, rfl, rfl, ?_⟩
  intro b
  cases b <;> simp [Subscription.cancel, Subscription.raise_event]

/-- C9: `Subscription::pause` sets status Paused regardless of prior
status and changes nothing else; `Subscription::resume` sets status Active
exactly when the current status is Paused and otherwise changes nothing.
Both are total functions into `Subscription` (the Rust methods return `()`),
so no `SubscriptionError` (`AlreadyCancelled`, `NotPaused`) can be raised by
any Subscription operation. -/
theorem C9_pause_resume (s : Subscription) :
    s.pause = { s with status := SubscriptionStatus.Paused } ∧
    (s.status = SubscriptionStatus.Paused →
      s.resume = { s with status := SubscriptionStatus.Active }) ∧
    (s.status ≠ SubscriptionStatus.Paused → s.resume = s) := by
  refine ⟨rfl, fun h => ?_, fun h => ?_⟩ <;> simp [Subscription.resume, h]

/-- A concrete paused subscription, for instantiating C9. -/
def sPausedW : Subscription :=
  { id := "sub_w9a", customer_id := "CUST001", plan_id := "PLAN_PRO",
    status := SubscriptionStatus.Paused, current_period_start := 0,
    current_period_end := 30, billing_cycle := BillingCycle.Monthly,
    amount := { amount := 49, currency := "USD" },
    cancel_at_period_end := false, cancelled_at := none, created_at := 0,
    events := [] }

/-- A concrete active subscription, for instantiating C9. -/
def sActiveW : Subscription :=
  { sPausedW with id := "sub_w9b", status := SubscriptionStatus.Active }

/-- Witness for C9 at concrete subscriptions: a paused one resumes to
Active, an active one is pause-able and resume leaves it unchanged. -/
theorem C9_pause_resume_witness :
    sActiveW.pause = { sActiveW with status := SubscriptionStatus.Paused } ∧
    sPausedW.resume = { sPausedW with status := SubscriptionStatus.Active } ∧
    sActiveW.resume = sActiveW :=
  ⟨(C9_pause_resume sActiveW).1,
   (C9_pause_resume sPausedW).2.1 rfl,
   (C9_pause_resume sActiveW).2.2 (by decide)⟩

/-- C4: `Payment::process` fails with InvalidStatus (state unchanged)
unless status is Pending, and on success attaches the method and sets
status Processing with no event; `Payment::succeed` fails with
InvalidStatus (state unchanged) unless status is Processing, and on
success sets status Succeeded and appends exactly one
`PaymentEvent::Succeeded{payment_id}`. -/
theorem C4_process_succeed (p : Payment) (m : PaymentMethod) :
    (p.status ≠ PaymentStatus.Pending →
      p.process m = (p, some PaymentError.InvalidStatus)) ∧
    (p.status = PaymentStatus.Pending →
      p.process m = ({ p with payment_method := some m,
                              status := PaymentStatus.Processing }, none)) ∧
    (p.status ≠ PaymentStatus.Processing →
      p.succeed = (p, some PaymentError.InvalidStatus)) ∧
    (p.status = PaymentStatus.Processing →
      p.succeed = ({ p with
                     status := PaymentStatus.Succeeded,
                     events := p.events ++
                       [DomainEvent.Payment (PaymentEvent.Succeeded p.id)] },
                   none)) := by
  refine ⟨fun h => ?_, fun h => ?_, fun h => ?_, fun h => ?_⟩ <;>
    simp [Payment.process, Payment.succeed, Payment.raise_event, h]

/-- A concrete payment method, used by several witnesses. -/
def methodW : PaymentMethod :=
  { method_type := PaymentMethodType.Card, last_four := some ("4242"),
    brand := some ("Visa"), exp_month := some 12, exp_year := some 2025 }

/-- A concrete pending payment of 100 USD. -/
def pPendingW : Payment :=
  { id := "pay_w4a", customer_id := "CUST001",
    amount := { amount := 100, currency := "USD" },
    status := PaymentStatus.Pending, payment_method := none,
    description := none, metadata := [], refunded_amount := 0,
    created_at := 0, events := [] }

/-- A concrete processing payment. -/
def pProcessingW : Payment :=
  { pPendingW with id := "pay_w4b", status := PaymentStatus.Processing,
                   payment_method := some methodW }

/-- A concrete failed payment. -/
def pFailedW : Payment :=
  { pPendingW with id := "pay_w4c", status := PaymentStatus.Failed }

/-- Witness for C4 at concrete payments: process succeeds from Pending and
is refused from Failed; succeed succeeds from Processing and is refused
from Pending. -/
theorem C4_process_succeed_witness :
    pPendingW.process methodW =
      ({ pPendingW with payment_method := some methodW,
                        status := PaymentStatus.Processing }, none) ∧
    pFailedW.process methodW = (pFailedW, some PaymentError.InvalidStatus) ∧
    pProcessingW.succeed =
      ({ pProcessingW with
         status := PaymentStatus.Succeeded,
         events := pProcessingW.events ++
           [DomainEvent.Payment (PaymentEvent.Succeeded pProcessingW.id)] },
       none) ∧
    pPendingW.succeed = (pPendingW, some PaymentError.InvalidStatus) :=
  ⟨(C4_process_succeed pPendingW methodW).2.1 rfl,
   (C4_process_succeed pFailedW methodW).1 (by decide),
   (C4_process_succeed pProcessingW methodW).2.2.2 rfl,
   (C4_process_succeed pPendingW methodW).2.2.1 (by decide)⟩

/-- C2: from status Succeeded or PartiallyRefunded, a refund with
`refunded_amount + amount ≤ amount.amount` succeeds: it increments
`refunded_amount` by the amount, sets status Refunded exactly when the new
total equals the payment total (exact decimal equality) and
PartiallyRefunded otherwise, and appends exactly one
`PaymentEvent::Refunded{payment_id, amount}`; from any other status,
`refund` returns NotRefundable.  Since a partial refund lands back in
PartiallyRefunded, repeated partial refunds remain allowed until the total
is fully refunded. -/
theorem C2_refund_behavior (p : Payment) (a : Decimal) :
    ((p.status = PaymentStatus.Succeeded ∨
        p.status = PaymentStatus.PartiallyRefunded) →
      p.refunded_amount + a ≤ p.amount.amount →
      p.refund a =
        ({ p with
           refunded_amount := p.refunded_amount + a,
           status := if p.refunded_amount + a = p.amount.amount then
               PaymentStatus.Refunded
             else PaymentStatus.PartiallyRefunded,
           events := p.events ++
             [DomainEvent.Payment (PaymentEvent.Refunded p.id a)] },
         none)) ∧
    (p.status ≠ PaymentStatus.Succeeded →
      p.status ≠ PaymentStatus.PartiallyRefunded →
      p.refund a = (p, some PaymentError.NotRefundable)) := by
  constructor
  · intro hst hle
    unfold Payment.refund
    rw [if_neg (by rcases hst with h | h <;> simp [h]),
        if_neg (not_lt.mpr hle)]
    rfl
  · intro h1 h2
    unfold Payment.refund
    rw [if_pos ⟨h1, h2⟩]

/-- A concrete succeeded payment of 100 USD with 40 already refunded. -/
def pSucceededW : Payment :=
  { id := "pay_w2a", customer_id := "CUST002",
    amount := { amount := 100, currency := "USD" },
    status := PaymentStatus.Succeeded, payment_method := some methodW,
    description := none, metadata := [], refunded_amount := 40,
    created_at := 0, events := [] }

/-- A concrete pending payment, not refundable. -/
def pPendingC2 : Payment :=
  { pSucceededW with id := "pay_w2b", status := PaymentStatus.Pending }

/-- Witness for C2 at concrete payments: a valid partial refund of 10 on a
Succeeded payment with 40 of 100 already refunded succeeds, and refunding a
Pending payment returns NotRefundable. -/
theorem C2_refund_behavior_witness :
    pSucceededW.refund 10 =
      ({ pSucceededW with
         refunded_amount := pSucceededW.refunded_amount + 10,
         status := if pSucceededW.refunded_amount + 10 =
             pSucceededW.amount.amount then PaymentStatus.Refunded
           else PaymentStatus.PartiallyRefunded,
         events := pSucceededW.events ++
           [DomainEvent.Payment
             (PaymentEvent.Refunded pSucceededW.id 10)] },
       none) ∧
    pPendingC2.refund 10 = (pPendingC2, some PaymentError.NotRefundable) :=
  ⟨(C2_refund_behavior pSucceededW 10).1 (Or.inl rfl)
     (by norm_num [pSucceededW]),
   (C2_refund_behavior pPendingC2 10).2 (by decide) (by decide)⟩

/-- C5: `take_events` on either aggregate returns the pending-events buffer
and clears it, so a second consecutive call returns the empty sequence; and
every lifecycle operation only ever appends to the end of the buffer, so the
drained sequence is exactly the events appended since the previous drain (or
since creation), in emission order. -/
theorem C5_take_events_contract :
    (∀ p : Payment, p.take_events = (p.events, { p with events := [] })) ∧
    (∀ p : Payment, (p.take_events.2).take_events.1 = []) ∧
    (∀ (p : Payment) (m : PaymentMethod),
      ∃ es, ((p.process m).1).events = p.events ++ es) ∧
    (∀ p : Payment, ∃ es, (p.succeed.1).events = p.events ++ es) ∧
    (∀ (p : Payment) (r : String), (p.fail r).events = p.events) ∧
    (∀ (p : Payment) (a : Decimal),
      ∃ es, ((p.refund a).1).events = p.events ++ es) ∧
    (∀ s : Subscription, s.take_events = (s.events, { s with events := [] })) ∧
    (∀ s : Subscription, (s.take_events.2).take_events.1 = []) ∧
    (∀ s : Subscription, ∃ es, s.renew.events = s.events ++ es) ∧
    (∀ (s : Subscription) (b : Bool) (t : Int),
      ∃ es, (s.cancel b t).events = s.events ++ es) ∧
    (∀ s : Subscription, s.pause.events = s.events) ∧
    (∀ s : Subscription, s.resume.events = s.events) := by
  refine ⟨fun p => rfl, fun p => rfl, ?_, ?_, fun p r => rfl, ?_,
          fun s => rfl, fun s => rfl, ?_, ?_, fun s => rfl, ?_⟩
  · intro p m
    unfold Payment.process
    split_ifs <;> exact ⟨[], by simp⟩
  · intro p
    unfold Payment.succeed
    split_ifs
    · exact ⟨[], by simp⟩
    · exact ⟨_, rfl⟩
  · intro p a
    simp only [Payment.refund]
    split_ifs
    · exact ⟨[], by simp⟩
    · exact ⟨[], by simp⟩
    · exact ⟨[DomainEvent.Payment (PaymentEvent.Refunded p.id a)],
             by simp [Payment.raise_event]⟩
    · exact ⟨[DomainEvent.Payment (PaymentEvent.Refunded p.id a)],
             by simp [Payment.raise_event]⟩
  · intro s
    exact ⟨_, rfl⟩
  · intro s b t
    cases b
    · exact ⟨_, rfl⟩
    · exact ⟨_, rfl⟩
  · intro s
    unfold Subscription.resume
    split_ifs <;> rfl

/-- The refund-bounds invariant of the Payment aggregate:
`0 ≤ refunded_amount ≤ amount.amount`. -/
def Payment.refundInv (p : Payment) : Prop :=
  0 ≤ p.refunded_amount ∧ p.refunded_amount ≤ p.amount.amount

/-- An operation whose refund argument (if any) is nonnegative. -/
def PaymentOp.refundNonneg : PaymentOp → Prop
  | PaymentOp.refund a => 0 ≤ a
  | _ => True

/-- One operation with a nonnegative refund argument preserves the
refund-bounds invariant. -/
theorem Payment.applyOp_refundInv (p : Payment) (op : PaymentOp)
    (h : p.refundInv) (hop : op.refundNonneg) : (p.applyOp op).refundInv := by
  cases op with
  | process m =>
      show ((p.process m).1).refundInv
      unfold Payment.process
      split_ifs <;> exact h
  | succeed =>
      show (p.succeed.1).refundInv
      unfold Payment.succeed
      split_ifs <;> exact h
  | fail r => exact h
  | take_events => exact h
  | refund a =>
      show ((p.refund a).1).refundInv
      simp only [Payment.refund]
      split_ifs with h1 h2 h3
      · exact h
      · exact h
      · exact ⟨add_nonneg h.1 hop, le_of_eq h3⟩
      · exact ⟨add_nonneg h.1 hop, not_lt.mp h2⟩

/-- Any sequence of operations with nonnegative refund arguments preserves
the refund-bounds invariant. -/
theorem Payment.runOps_refundInv (ops : List PaymentOp) (p : Payment)
    (h : p.refundInv) (hops : ∀ op ∈ ops, op.refundNonneg) :
    (p.runOps ops).refundInv := by
  induction ops generalizing p with
  | nil => exact h
  | cons op ops ih =>
      exact ih (p.applyOp op)
        (p.applyOp_refundInv op h (hops op (List.mem_cons_self op ops)))
        (fun o ho => hops o (List.mem_cons_of_mem op ho))

/-- One operation, with an arbitrary (possibly negative) refund argument,
preserves the upper bound `refunded_amount ≤ amount.amount`: the only
operation that changes `refunded_amount` is `refund`, whose success path is
guarded by exactly this bound on the new total. -/
theorem Payment.applyOp_refunded_le (p : Payment) (op : PaymentOp)
    (h : p.refunded_amount ≤ p.amount.amount) :
    (p.applyOp op).refunded_amount ≤ (p.applyOp op).amount.amount := by
  cases op with
  | process m =>
      show ((p.process m).1).refunded_amount ≤ ((p.process m).1).amount.amount
      unfold Payment.process
      split_ifs <;> exact h
  | succeed =>
      show (p.succeed.1).refunded_amount ≤ (p.succeed.1).amount.amount
      unfold Payment.succeed
      split_ifs <;> exact h
  | fail r => exact h
  | take_events => exact h
  | refund a =>
      show ((p.refund a).1).refunded_amount ≤ ((p.refund a).1).amount.amount
      simp only [Payment.refund]
      split_ifs with h1 h2 h3
      · exact h
      · exact h
      · exact le_of_eq h3
      · exact not_lt.mp h2

/-- Any sequence of operations, with arbitrary refund arguments, preserves
the upper bound `refunded_amount ≤ amount.amount`. -/
theorem Payment.runOps_refunded_le (ops : List PaymentOp) (p : Payment)
    (h : p.refunded_amount ≤ p.amount.amount) :
    (p.runOps ops).refunded_amount ≤ (p.runOps ops).amount.amount := by
  induction ops generalizing p with
  | nil => exact h
  | cons op ops ih => exact ih (p.applyOp op) (p.applyOp_refunded_le op h)

/-- C1 (amended): for every Payment created with a nonnegative amount,
`refunded_amount ≤ amount.amount` holds after every sequence of operations
(hence at all intermediate states, each being reached by a shorter
sequence); if moreover every refund in the sequence has a nonnegative
argument then `0 ≤ refunded_amount` also holds; and a refund call on a
Payment in a refundable status whose amount would push the cumulative
refund past the total returns RefundExceedsPayment and leaves the entire
Payment state (status, refunded_amount, pending events) unchanged. -/
theorem C1_refund_invariant (customer_id : String) (amount : Money)
    (id : PaymentId) (now : Int) (ops : List PaymentOp)
    (hm : 0 ≤ amount.amount) :
    ((Payment.create customer_id amount id now).runOps ops).refunded_amount ≤
      ((Payment.create customer_id amount id now).runOps ops).amount.amount ∧
    ((∀ op ∈ ops, op.refundNonneg) →
      0 ≤ ((Payment.create customer_id amount id now).runOps
        ops).refunded_amount) ∧
    ∀ (p : Payment) (a : Decimal),
      (p.status = PaymentStatus.Succeeded ∨
        p.status = PaymentStatus.PartiallyRefunded) →
      p.amount.amount < p.refunded_amount + a →
      p.refund a = (p, some PaymentError.RefundExceedsPayment) := by
  refine ⟨?_, ?_, ?_⟩
  · exact Payment.runOps_refunded_le ops _ hm
  · intro hops
    exact (Payment.runOps_refundInv ops _ ⟨le_refl 0, hm⟩ hops).1
  · intro p a hst hlt
    unfold Payment.refund
    rw [if_neg (by rcases hst with h | h <;> simp [h]), if_pos hlt]

/-- A concrete payment method with no optional details. -/
def methodC1 : PaymentMethod :=
  { method_type := PaymentMethodType.Card, last_four := none, brand := none,
    exp_month := none, exp_year := none }

/-- Witness for C1 at concrete inputs: create a 100 USD payment, process,
succeed and refund 40; the invariant holds, and a concrete over-refund on a
Succeeded payment (40 of 100 refunded, asking 70 more) is rejected with
RefundExceedsPayment and no state change. -/
theorem C1_refund_invariant_witness :
    ((Payment.create ("CUST001") { amount := 100, currency := "USD" }
        ("pay_w1") 0).runOps
      [PaymentOp.process methodC1, PaymentOp.succeed,
       PaymentOp.refund (-1)]).refunded_amount ≤
      ((Payment.create ("CUST001") { amount := 100, currency := "USD" }
        ("pay_w1") 0).runOps
      [PaymentOp.process methodC1, PaymentOp.succeed,
       PaymentOp.refund (-1)]).amount.amount ∧
    0 ≤ ((Payment.create ("CUST001") { amount := 100, currency := "USD" }
        ("pay_w1") 0).runOps
      [PaymentOp.process methodC1, PaymentOp.succeed,
       PaymentOp.refund 40]).refunded_amount ∧
    pSucceededW.refund 70 =
      (pSucceededW, some PaymentError.RefundExceedsPayment) := by
  have hneg := C1_refund_invariant ("CUST001")
    { amount := 100, currency := "USD" } ("pay_w1") 0
    [PaymentOp.process methodC1, PaymentOp.succeed, PaymentOp.refund (-1)]
    (by norm_num)
  have hpos := C1_refund_invariant ("CUST001")
    { amount := 100, currency := "USD" } ("pay_w1") 0
    [PaymentOp.process methodC1, PaymentOp.succeed, PaymentOp.refund 40]
    (by norm_num)
  refine ⟨hneg.1, hpos.2.1 ?_, hpos.2.2 pSucceededW 70 (Or.inl rfl)
    (by norm_num [pSucceededW])⟩
  intro op hop
  simp only [List.mem_cons, List.not_mem_nil, or_false] at hop
  rcases hop with rfl | rfl | rfl
  · trivial
  · trivial
  · show (0 : Decimal) ≤ 40
    norm_num

/-- The payment reached by refunding a negative amount from Succeeded:
create 5 USD, process, succeed, then `refund (-1)`. -/
def pC1cex : Payment :=
  (Payment.create ("CUST001") { amount := 5, currency := "USD" }
      ("pay_c1") 0).runOps
    [PaymentOp.process methodC1, PaymentOp.succeed, PaymentOp.refund (-1)]

/-- A concrete Pending payment of 5 USD with nothing refunded. -/
def pC1pending : Payment :=
  { id := "pay_c1b", customer_id := "CUST001",
    amount := { amount := 5, currency := "USD" },
    status := PaymentStatus.Pending, payment_method := none,
    description := none, metadata := [], refunded_amount := 0,
    created_at := 0, events := [] }

/-- Counterexample to C1 as stated.  (i) `refund` accepts a negative
amount (the guard only checks the new total against the payment total), so
after `refund (-1)` on a freshly succeeded 5 USD payment the invariant
`0 ≤ refunded_amount` is violated.  (ii) A refund whose amount would exceed
the total does not always return RefundExceedsPayment: on a Pending payment
the status check fires first and it returns NotRefundable.  (iii) `create`
accepts a negative amount, violating `refunded_amount ≤ amount.amount` at
creation. -/
theorem C1_counterexample :
    pC1cex.refunded_amount = -1 ∧
    ¬ (0 ≤ pC1cex.refunded_amount) ∧
    pC1pending.refunded_amount + 10 > pC1pending.amount.amount ∧
    pC1pending.refund 10 = (pC1pending, some PaymentError.NotRefundable) ∧
    ¬ ((Payment.create ("CUST002") { amount := -5, currency := "USD" }
          ("pay_c1c") 0).refunded_amount ≤
        (Payment.create ("CUST002") { amount := -5, currency := "USD" }
          ("pay_c1c") 0).amount.amount) := by
  have hcex : pC1cex.refunded_amount = -1 := by
    norm_num [pC1cex, Payment.runOps, Payment.applyOp, Payment.create,
      Payment.raise_event, Payment.process, Payment.succeed, Payment.refund]
  refine ⟨hcex, ?_, ?_, ?_, ?_⟩
  · rw [hcex]; norm_num
  · norm_num [pC1pending]
  · simp [Payment.refund, pC1pending]
  · norm_num [Payment.create, Payment.raise_event]

/-- C3 (amended): terminal statuses are absorbing for the guarded
operations only.  A Payment in Failed, Refunded or Cancelled keeps its
status under `process`, `succeed` and `refund`, while `fail` always forces
status Failed (so among the terminal statuses only Failed is absorbing
under all four operations); a Cancelled Subscription keeps its status under
`renew`, `cancel` and `resume`, while `pause` always forces status
Paused. -/
theorem C3_terminal_status (p : Payment) (m : PaymentMethod) (r : String)
    (a : Decimal) (s : Subscription) (b : Bool) (t : Int)
    (hp : p.status = PaymentStatus.Failed ∨
      p.status = PaymentStatus.Refunded ∨
      p.status = PaymentStatus.Cancelled)
    (hs : s.status = SubscriptionStatus.Cancelled) :
    (p.process m).1.status = p.status ∧
    p.succeed.1.status = p.status ∧
    (p.refund a).1.status = p.status ∧
    (p.fail r).status = PaymentStatus.Failed ∧
    s.renew.status = s.status ∧
    (s.cancel b t).status = s.status ∧
    s.resume.status = s.status ∧
    s.pause.status = SubscriptionStatus.Paused := by
  refine ⟨?_, ?_, ?_, rfl, rfl, ?_, ?_, rfl⟩
  · unfold Payment.process
    rw [if_pos (by rcases hp with h | h | h <;> simp [h])]
  · unfold Payment.succeed
    rw [if_pos (by rcases hp with h | h | h <;> simp [h])]
  · unfold Payment.refund
    rw [if_pos (by rcases hp with h | h | h <;> simp [h])]
  · cases b <;> simp [Subscription.cancel, Subscription.raise_event, hs]
  · unfold Subscription.resume
    rw [if_neg (by simp [hs])]

/-- A concrete fully refunded payment of 100 USD. -/
def pRefundedC3 : Payment :=
  { id := "pay_c3", customer_id := "CUST003",
    amount := { amount := 100, currency := "USD" },
    status := PaymentStatus.Refunded, payment_method := some methodW,
    description := none, metadata := [], refunded_amount := 100,
    created_at := 0, events := [] }

/-- A concrete cancelled subscription. -/
def sCancelledC3 : Subscription :=
  { id := "sub_c3", customer_id := "CUST003", plan_id := "PLAN_PRO",
    status := SubscriptionStatus.Cancelled, current_period_start := 0,
    current_period_end := 30, billing_cycle := BillingCycle.Monthly,
    amount := { amount := 49, currency := "USD" },
    cancel_at_period_end := false, cancelled_at := some 10, created_at := 0,
    events := [] }

/-- Witness for C3 at a concrete Refunded payment and a concrete Cancelled
subscription. -/
theorem C3_terminal_status_witness :
    (pRefundedC3.process methodW).1.status = pRefundedC3.status ∧
    pRefundedC3.succeed.1.status = pRefundedC3.status ∧
    (pRefundedC3.refund 1).1.status = pRefundedC3.status ∧
    (pRefundedC3.fail ("network error")).status = PaymentStatus.Failed ∧
    sCancelledC3.renew.status = sCancelledC3.status ∧
    (sCancelledC3.cancel false 20).status = sCancelledC3.status ∧
    sCancelledC3.resume.status = sCancelledC3.status ∧
    sCancelledC3.pause.status = SubscriptionStatus.Paused :=
  C3_terminal_status pRefundedC3 methodW ("network error") 1 sCancelledC3
    false 20 (Or.inr (Or.inl rfl)) rfl

/-- Counterexample to C3 as stated: `Payment::fail` on a Refunded payment
moves the status to Failed, and `Subscription::pause` on a Cancelled
subscription moves the status to Paused — neither terminal state is
absorbing for these unguarded operations. -/
theorem C3_counterexample :
    pRefundedC3.status = PaymentStatus.Refunded ∧
    (pRefundedC3.fail ("x")).status = PaymentStatus.Failed ∧
    (pRefundedC3.fail ("x")).status ≠ pRefundedC3.status ∧
    sCancelledC3.status = SubscriptionStatus.Cancelled ∧
    sCancelledC3.pause.status = SubscriptionStatus.Paused ∧
    sCancelledC3.pause.status ≠ sCancelledC3.status :=
  ⟨rfl, rfl, by decide, rfl, rfl, by decide⟩

/-- The id carried by a `PaymentEvent` (the `payment_id` field common to
all variants). -/
def PaymentEvent.payment_id : PaymentEvent → PaymentId
  | PaymentEvent.Created i _ => i
  | PaymentEvent.Succeeded i => i
  | PaymentEvent.Failed i _ => i
  | PaymentEvent.Refunded i _ => i

/-- The id carried by a `SubscriptionEvent` (the `subscription_id` field
common to all variants). -/
def SubscriptionEvent.subscription_id : SubscriptionEvent → String
  | SubscriptionEvent.Created i => i
  | SubscriptionEvent.Renewed i => i
  | SubscriptionEvent.Cancelled i _ => i
  | SubscriptionEvent.PaymentFailed i => i

/-- Every payment event pending on a Payment carries that id of that Payment. -/
def Payment.ownsEvents (p : Payment) : Prop :=
  ∀ e ∈ p.events, ∀ ev : PaymentEvent,
    e = DomainEvent.Payment ev → ev.payment_id = p.id

/-- Every subscription event pending on a Subscription carries that
id of that Subscription. -/
def Subscription.ownsEvents (s : Subscription) : Prop :=
  ∀ e ∈ s.events, ∀ ev : SubscriptionEvent,
    e = DomainEvent.Subscription ev → ev.subscription_id = s.id

/-- Raising a payment event whose id matches preserves event ownership. -/
theorem Payment.ownsEvents_raise (p : Payment) (ev : PaymentEvent)
    (h : p.ownsEvents) (hev : ev.payment_id = p.id) :
    (p.raise_event (DomainEvent.Payment ev)).ownsEvents := by
  intro e he ev2 hEq
  simp only [Payment.raise_event, List.mem_append, List.mem_singleton] at he
  rcases he with he | he
  · exact h e he ev2 hEq
  · subst he
    injection hEq with h2
    subst h2
    exact hev

/-- Raising a subscription event whose id matches preserves event
ownership. -/
theorem Subscription.ownsEvents_raise_s (s : Subscription)
    (ev : SubscriptionEvent) (h : s.ownsEvents)
    (hev : ev.subscription_id = s.id) :
    (s.raise_event (DomainEvent.Subscription ev)).ownsEvents := by
  intro e he ev2 hEq
  simp only [Subscription.raise_event, List.mem_append,
    List.mem_singleton] at he
  rcases he with he | he
  · exact h e he ev2 hEq
  · subst he
    injection hEq with h2
    subst h2
    exact hev

/-- Every Payment operation preserves event ownership. -/
theorem Payment.applyOp_ownsEvents (p : Payment) (op : PaymentOp)
    (h : p.ownsEvents) : (p.applyOp op).ownsEvents := by
  cases op with
  | process m =>
      show ((p.process m).1).ownsEvents
      unfold Payment.process
      split_ifs <;> exact h
  | succeed =>
      show (p.succeed.1).ownsEvents
      unfold Payment.succeed
      split_ifs
      · exact h
      · exact Payment.ownsEvents_raise _ _ h rfl
  | fail r => exact h
  | take_events =>
      intro e he ev hEq
      simp [Payment.applyOp, Payment.take_events] at he
  | refund a =>
      show ((p.refund a).1).ownsEvents
      simp only [Payment.refund]
      split_ifs
      · exact h
      · exact h
      · exact Payment.ownsEvents_raise _ _ h rfl
      · exact Payment.ownsEvents_raise _ _ h rfl

/-- Every Subscription operation preserves event ownership. -/
theorem Subscription.applyOp_ownsEvents_s (s : Subscription)
    (op : SubscriptionOp) (h : s.ownsEvents) :
    (s.applyOp op).ownsEvents := by
  cases op with
  | renew => exact Subscription.ownsEvents_raise_s _ _ h rfl
  | cancel b t =>
      show (s.cancel b t).ownsEvents
      cases b
      · exact Subscription.ownsEvents_raise_s _ _ h rfl
      · exact Subscription.ownsEvents_raise_s _ _ h rfl
  | pause => exact h
  | resume =>
      show s.resume.ownsEvents
      unfold Subscription.resume
      split_ifs <;> exact h
  | take_events =>
      intro e he ev hEq
      simp [Subscription.applyOp, Subscription.take_events] at he

/-- Event ownership is preserved by any sequence of Payment operations. -/
theorem Payment.runOps_ownsEvents (ops : List PaymentOp) (p : Payment)
    (h : p.ownsEvents) : (p.runOps ops).ownsEvents := by
  induction ops generalizing p with
  | nil => exact h
  | cons op ops ih => exact ih (p.applyOp op) (p.applyOp_ownsEvents op h)

/-- Event ownership is preserved by any sequence of Subscription
operations. -/
theorem Subscription.runOps_ownsEvents_s (ops : List SubscriptionOp)
    (s : Subscription) (h : s.ownsEvents) : (s.runOps ops).ownsEvents := by
  induction ops generalizing s with
  | nil => exact h
  | cons op ops ih =>
      exact ih (s.applyOp op) (Subscription.applyOp_ownsEvents_s s op h)

/-- A freshly created Payment owns its single Created event. -/
theorem Payment.create_ownsEvents (customer_id : String) (amount : Money)
    (id : PaymentId) (now : Int) :
    (Payment.create customer_id amount id now).ownsEvents := by
  intro e he ev hEq
  simp only [Payment.create, Payment.raise_event, List.nil_append,
    List.mem_singleton] at he
  subst he
  injection hEq with h2
  subst h2
  rfl

/-- A freshly created Subscription owns its single Created event. -/
theorem Subscription.create_ownsEvents_s (customer_id plan_id : String)
    (amount : Money) (cycle : BillingCycle) (id : String) (today now : Int) :
    (Subscription.create customer_id plan_id amount cycle id
      today now).ownsEvents := by
  intro e he ev hEq
  simp only [Subscription.create, Subscription.raise_event, List.nil_append,
    List.mem_singleton] at he
  subst he
  injection hEq with h2
  subst h2
  rfl

/-- C10: after any sequence of operations since creation, every
`PaymentEvent` pending on a Payment carries that own id of that Payment, and
every `SubscriptionEvent` pending on a Subscription carries that
own id of that Subscription. -/
theorem C10_event_ownership :
    (∀ (customer_id : String) (amount : Money) (id : PaymentId) (now : Int)
        (ops : List PaymentOp),
      ((Payment.create customer_id amount id now).runOps ops).ownsEvents) ∧
    (∀ (customer_id plan_id : String) (amount : Money)
        (cycle : BillingCycle) (id : String) (today now : Int)
        (ops : List SubscriptionOp),
      ((Subscription.create customer_id plan_id amount cycle id
          today now).runOps ops).ownsEvents) :=
  ⟨fun cid m i t ops =>
    Payment.runOps_ownsEvents ops _ (Payment.create_ownsEvents cid m i t),
   fun cid pl m cy i d t ops =>
    Subscription.runOps_ownsEvents_s ops _
      (Subscription.create_ownsEvents_s cid pl m cy i d t)⟩

/-- Witness for C10 at concrete inputs: event ownership after a concrete
payment run (create, process, succeed) and a concrete subscription run
(create, renew, cancel at period end). -/
theorem C10_event_ownership_witness :
    ((Payment.create ("CUST001") { amount := 100, currency := "USD" }
        ("pay_w10") 0).runOps
      [PaymentOp.process methodC1, PaymentOp.succeed]).ownsEvents ∧
    ((Subscription.create ("CUST001") ("PLAN_PRO")
        { amount := 49, currency := "USD" } BillingCycle.Monthly
        ("sub_w10") 0 0).runOps
      [SubscriptionOp.renew, SubscriptionOp.cancel true 40]).ownsEvents :=
  ⟨C10_event_ownership.1 ("CUST001") { amount := 100, currency := "USD" }
     ("pay_w10") 0 [PaymentOp.process methodC1, PaymentOp.succeed],
   C10_event_ownership.2 ("CUST001") ("PLAN_PRO")
     { amount := 49, currency := "USD" } BillingCycle.Monthly ("sub_w10") 0 0
     [SubscriptionOp.renew, SubscriptionOp.cancel true 40]⟩
